import Mathlib

/-!
A shallow embedding of the deterministic quiz-generation and text-analysis
engine of the Quizito AI service (file quizito_ai_service.py), with proofs
of the specified properties. Python strings are modelled as Lean strings
over their character data, Python floats as rationals, and the in-place
numpy shuffle as an explicit permutation parameter passed to the functions
that invoke it. All definitions are executable.
-/

namespace Quizito

/-- Lower-casing of a string character by character, the model of the
Python str.lower calls on ASCII text. -/
def toLowerStr (s : String) : String := String.mk (s.data.map Char.toLower)

/-- Boolean test that pat occurs as a contiguous infix of a character list,
the model of the Python substring operator on the underlying text. -/
def infixOfList (pat : List Char) : List Char → Bool
  | [] => pat.isEmpty
  | c :: cs => pat.isPrefixOf (c :: cs) || infixOfList pat cs

/-- The Python substring test, sub occurring inside s. -/
def containsSub (s sub : String) : Bool := infixOfList sub.data s.data

/-- Keyword table of categorize_topic for the technology category, in the
declaration order of the Python dict literal. -/
def technology_keywords : List String :=
  ["programming", "software", "computer", "ai", "machine learning",
   "data science", "web", "mobile", "cloud", "cybersecurity"]

/-- Keyword table of categorize_topic for the science category. -/
def science_keywords : List String :=
  ["biology", "chemistry", "physics", "astronomy", "geology",
   "environmental", "medical", "neuroscience"]

/-- Keyword table of categorize_topic for the history category. -/
def history_keywords : List String :=
  ["historical", "war", "civilization", "ancient", "medieval",
   "modern", "political", "cultural"]

/-- Keyword table of categorize_topic for the mathematics category. -/
def mathematics_keywords : List String :=
  ["math", "algebra", "calculus", "statistics", "geometry"]

/-- Keyword table of categorize_topic for the business category. -/
def business_keywords : List String :=
  ["marketing", "finance", "management", "economics", "entrepreneurship"]

/-- Model of categorize_topic: lower-case the topic, test the five
categories in the iteration order of the Python dict, returning the first
category any of whose keywords occurs as a substring, capitalized as the
source does; General when none matches. -/
def categorize_topic (topic : String) : String :=
  let topic_lower := toLowerStr topic
  if technology_keywords.any (fun k => containsSub topic_lower k) then "Technology"
  else if science_keywords.any (fun k => containsSub topic_lower k) then "Science"
  else if history_keywords.any (fun k => containsSub topic_lower k) then "History"
  else if mathematics_keywords.any (fun k => containsSub topic_lower k) then "Mathematics"
  else if business_keywords.any (fun k => containsSub topic_lower k) then "Business"
  else "General"

/-- Aspect fragment list of generate_aspects_from_topic for the technology
category. -/
def technology_aspects : List String :=
  ["fundamentals", "applications", "architecture", "security", "performance",
   "implementation", "best practices", "trends", "tools", "methodologies"]

/-- Aspect fragment list for the science category. -/
def science_aspects : List String :=
  ["principles", "theories", "experiments", "discoveries", "applications",
   "methodologies", "impact", "research", "concepts", "phenomena"]

/-- Aspect fragment list for the history category. -/
def history_aspects : List String :=
  ["events", "figures", "periods", "causes", "consequences", "themes",
   "movements", "cultures", "developments", "interpretations"]

/-- Aspect fragment list for the general category, also the default of the
dict lookup aspect_templates.get in the source. -/
def general_aspects : List String :=
  ["basics", "advanced concepts", "practical applications", "common mistakes",
   "best practices", "tools", "resources", "career aspects", "future trends"]

/-- The fragment list generate_aspects_from_topic selects for a topic:
lower-cased category looked up in the template dict, with the general list
as the default for categories that have no entry. -/
def templatesFor (topic : String) : List String :=
  let category := toLowerStr (categorize_topic topic)
  if category = "technology" then technology_aspects
  else if category = "science" then science_aspects
  else if category = "history" then history_aspects
  else general_aspects

/-- Model of generate_aspects_from_topic: for each index below num_aspects
emit the fragment at the index modulo the list length, followed by the text
of-topic; the source then truncates with a slice of the same length. -/
def generate_aspects_from_topic (topic : String) (num_aspects : Nat) : List String :=
  let templates := templatesFor topic
  let aspects := (List.range num_aspects).map
    (fun i => templates.getD (i % templates.length) "" ++ " of " ++ topic)
  aspects.take num_aspects

/-- Points per difficulty: the Python dict points_map read with get and
default 100, as in the fallback generator. -/
def pointsFor (difficulty : String) : Nat :=
  if difficulty = "easy" then 100
  else if difficulty = "medium" then 150
  else if difficulty = "hard" then 200
  else 100

/-- Seconds per difficulty: the Python dict time_map read with get and
default 30. -/
def timeFor (difficulty : String) : Nat :=
  if difficulty = "easy" then 30
  else if difficulty = "medium" then 45
  else if difficulty = "hard" then 60
  else 30

/-- The five question phrasing templates of the fallback generator, with
the topic and aspect substitutions of str.format applied. -/
def question_templates : List (String → String → String) :=
  [fun topic aspect => "What is the primary concept of " ++ topic ++ " regarding " ++ aspect ++ "?",
   fun topic aspect => "Which of the following best describes " ++ aspect ++ " in " ++ topic ++ "?",
   fun topic aspect => "What is a key characteristic of " ++ topic ++ " related to " ++ aspect ++ "?",
   fun topic aspect => "How does " ++ aspect ++ " function within " ++ topic ++ "?",
   fun topic aspect => "What is the significance of " ++ aspect ++ " in understanding " ++ topic ++ "?"]

/-- The distractor strings of generate_plausible_options per difficulty;
the source builds four for each branch and later uses the first three. -/
def distractorsFor (correct_aspect topic difficulty : String) : List String :=
  if difficulty = "easy" then
    ["A different aspect of " ++ topic,
     "An unrelated concept to " ++ topic,
     "A common misconception about " ++ topic,
     "A basic principle of " ++ topic]
  else if difficulty = "medium" then
    ["A related but incorrect aspect of " ++ topic,
     "A partially correct concept about " ++ topic,
     "An advanced but irrelevant concept in " ++ topic,
     "A historical perspective on " ++ topic]
  else
    ["A nuanced but incorrect interpretation of " ++ correct_aspect,
     "A controversial viewpoint on " ++ topic,
     "An advanced technical detail unrelated to " ++ correct_aspect,
     "A theoretical concept that doesn't apply to " ++ correct_aspect]

/-- The post-shuffle fix-up of generate_plausible_options: the source finds
the index of the first option equal to the original correct string and
moves that element to the front; when the value is absent the lookup
raises, the exception is swallowed, and the list stays as the shuffle left
it. -/
def relocate_correct (correct : String) (options : List String) : List String :=
  if correct ∈ options then correct :: options.erase correct else options

/-- Model of generate_plausible_options. The in-place numpy shuffle is the
parameter s applied to the assembled list; the source then repins the
correct option to index zero. -/
def generate_plausible_options (correct_aspect topic difficulty : String)
    (s : List String → List String) : List String :=
  relocate_correct ("The " ++ correct_aspect)
    (s (("The " ++ correct_aspect) :: (distractorsFor correct_aspect topic difficulty).take 3))

/-- The medium wording of create_detailed_explanation, also the default of
the dict get for unrecognized difficulty values. -/
def medium_explanation (topic aspect : String) : String :=
  "The correct answer relates to " ++ aspect ++ ", which is a key component of " ++ topic ++
    ". This aspect is important because it connects various concepts within " ++ topic ++
    " and demonstrates practical applications."

/-- Model of create_detailed_explanation: three canned wordings keyed by
difficulty, defaulting to the medium wording. -/
def create_detailed_explanation (topic aspect difficulty : String) : String :=
  if difficulty = "easy" then
    "This is correct because understanding " ++ aspect ++ " is fundamental to " ++ topic ++
      ". It represents a basic principle that forms the foundation for more advanced concepts."
  else if difficulty = "medium" then medium_explanation topic aspect
  else if difficulty = "hard" then
    "This answer correctly identifies " ++ aspect ++ ", which involves complex interplay " ++
      "within " ++ topic ++ ". Understanding this requires knowledge of underlying principles, " ++
      "contextual factors, and potential implications in advanced scenarios of " ++ topic ++ "."
  else medium_explanation topic aspect

/-- The five educational tip templates of generate_educational_tip. -/
def tip_templates : List (String → String → String) :=
  [fun topic aspect => "To better understand " ++ aspect ++ " in " ++ topic ++ ", try relating it to practical examples.",
   fun topic aspect => "Consider how " ++ aspect ++ " connects to other concepts within " ++ topic ++ " for deeper understanding.",
   fun topic aspect => "Research real-world applications of " ++ aspect ++ " to see how " ++ topic ++ " is used in practice.",
   fun topic aspect => "Create mind maps linking " ++ aspect ++ " to related concepts in " ++ topic ++ ".",
   fun topic aspect => "Discuss " ++ aspect ++ " with peers to gain different perspectives on " ++ topic ++ "."]

/-- Model of generate_educational_tip: the tip selected by the aspect
length modulo the number of templates. -/
def generate_educational_tip (topic aspect : String) : String :=
  (tip_templates.getD (aspect.length % tip_templates.length) (fun _ _ => "")) topic aspect

/-- The eight learning objective templates of generate_learning_objectives. -/
def objective_templates (topic : String) : List String :=
  ["Understand the fundamental concepts of " ++ topic,
   "Identify key components and their relationships within " ++ topic,
   "Apply knowledge of " ++ topic ++ " to solve basic problems",
   "Analyze different aspects of " ++ topic ++ " and their implications",
   "Evaluate the importance and applications of " ++ topic,
   "Synthesize information about " ++ topic ++ " to form comprehensive understanding",
   "Develop critical thinking skills related to " ++ topic,
   "Recognize common misconceptions about " ++ topic]

/-- Model of generate_learning_objectives: the template list truncated at
the minimum of the requested count and the list length. -/
def generate_learning_objectives (topic : String) (num_objectives : Nat) : List String :=
  (objective_templates topic).take (min num_objectives (objective_templates topic).length)

/-- Model of get_educational_level: the levels dict read with the default
Intermediate. -/
def get_educational_level (difficulty : String) : String :=
  if difficulty = "easy" then "Beginner/Introductory"
  else if difficulty = "medium" then "Intermediate"
  else if difficulty = "hard" then "Advanced/Expert"
  else "Intermediate"

/-- Lower-case and replace spaces with hyphens, the tag normal form the
source computes inline for tags. -/
def slugOf (s : String) : String :=
  String.mk ((toLowerStr s).data.map (fun c => if c = ' ' then '-' else c))

/-- Maximal runs of characters satisfying p, the tokenizer behind the word
scans and the whitespace splitting of the source. -/
def runsByAux (p : Char → Bool) : List Char → List Char → List (List Char)
  | [], acc => if acc.isEmpty then [] else [acc.reverse]
  | c :: cs, acc =>
    if p c then runsByAux p cs (c :: acc)
    else if acc.isEmpty then runsByAux p cs []
    else acc.reverse :: runsByAux p cs []

/-- Maximal runs of characters satisfying p in l, in order. -/
def runsBy (p : Char → Bool) (l : List Char) : List (List Char) := runsByAux p l []

/-- ASCII reading of the regex word character class. -/
def isWordChar (c : Char) : Bool := c.isAlpha || c.isDigit || c = '_'

/-- The common-word set of extract_keywords_from_context. -/
def context_common_words : List String :=
  ["this", "that", "with", "from", "have", "were", "their", "which", "about"]

/-- Increment the count of w in an association list kept in first-occurrence
order, the model of the Python dict frequency count. -/
def bumpCount (w : String) : List (String × Nat) → List (String × Nat)
  | [] => [(w, 1)]
  | (v, n) :: rest => if v = w then (v, n + 1) :: rest else (v, n) :: bumpCount w rest

/-- Frequency count of a word list, keys in first-occurrence order. -/
def countWords (ws : List String) : List (String × Nat) :=
  ws.foldl (fun acc w => bumpCount w acc) []

/-- Stable insertion into a list sorted by descending count: the element
passes those with strictly greater count and stops before the first with a
smaller or equal one, so earlier elements keep priority on ties. -/
def insertDesc (x : String × Nat) : List (String × Nat) → List (String × Nat)
  | [] => [x]
  | y :: ys => if x.2 < y.2 then y :: insertDesc x ys else x :: y :: ys

/-- Stable sort by descending count, the model of the stable Python sorted
with a count key and reverse order. -/
def sortByCountDesc : List (String × Nat) → List (String × Nat)
  | [] => []
  | x :: xs => insertDesc x (sortByCountDesc xs)

/-- Python str.title on a single alphabetic word: first character upper,
the rest lower. -/
def titleWord (w : String) : String :=
  match w.data with
  | [] => ""
  | c :: cs => String.mk (c.toUpper :: cs.map Char.toLower)

/-- Model of extract_keywords_from_context: all-letter words of length at
least four in the lower-cased context, the common words dropped, counted,
stably sorted by descending frequency, top ten, title-cased. -/
def extract_keywords_from_context (context : String) : List String :=
  if context = "" then []
  else
    let words := (runsBy isWordChar (toLowerStr context).data).filterMap
      (fun r => if r.all Char.isAlpha && 4 ≤ r.length then some (String.mk r) else none)
    let counted := countWords (words.filter (fun w => w ∉ context_common_words))
    (((sortByCountDesc counted).map Prod.fst).take 10).map titleWord

/-- A question document as the engine builds and mutates it. Fields that
the enhancement path reads through dict presence checks are optional. -/
structure Question where
  question : String
  qtype : String
  options : List String
  correctAnswer : Nat
  explanation : Option String
  points : Option Nat
  timeLimit : Option Nat
  difficulty : Option String
  category : Option String
  tags : Option (List String)
  educationalTip : Option String
deriving DecidableEq

/-- A quiz document. Optional fields model dict keys the enhancement path
tests for presence; metadata is the open key-value map with values
rendered as strings. -/
structure Quiz where
  title : Option String
  description : Option String
  category : Option String
  difficulty : Option String
  estimatedTime : Option ℚ
  totalPoints : Option Nat
  learningObjectives : Option (List String)
  questions : List Question
  tags : Option (List String)
  metadata : List (String × String)
deriving DecidableEq

/-- One iteration of the question loop of generate_enhanced_fallback_quiz,
with s the shuffle outcome used for the option list of this question. -/
def mkFallbackQuestion (topic aspect : String) (i : Nat) (difficulty quiz_type : String)
    (s : List String → List String) : Question :=
  { question := (question_templates.getD (i % question_templates.length) (fun _ _ => "")) topic aspect
    qtype := quiz_type
    options := generate_plausible_options aspect topic difficulty s
    correctAnswer := 0
    explanation := some (create_detailed_explanation topic aspect difficulty)
    points := some (pointsFor difficulty)
    timeLimit := some (timeFor difficulty)
    difficulty := some difficulty
    category := some (categorize_topic topic)
    tags := some [slugOf topic, slugOf aspect, difficulty]
    educationalTip := some (generate_educational_tip topic aspect) }

/-- Model of generate_enhanced_fallback_quiz. The parameter sh gives the
shuffle outcome function used for the option list of question i. -/
def generate_enhanced_fallback_quiz (topic difficulty : String) (num_questions : Nat)
    (quiz_type context : String) (sh : Nat → List String → List String) : Quiz :=
  let keywords := if context = "" then [] else extract_keywords_from_context context
  let aspects := generate_aspects_from_topic topic num_questions
  let questions := (List.range num_questions).map
    (fun i => mkFallbackQuestion topic (aspects.getD (i % aspects.length) "") i
      difficulty quiz_type (sh i))
  { title := some ("Comprehensive Quiz: " ++ topic)
    description := some ("A detailed quiz covering various aspects of " ++ topic ++
      ". \n        This quiz is designed to test understanding at " ++ difficulty ++
      " level and covers \n        key concepts, applications, and principles.")
    category := some (categorize_topic topic)
    difficulty := some difficulty
    estimatedTime := some ((num_questions : ℚ) * 0.8)
    totalPoints := some (num_questions * pointsFor difficulty)
    learningObjectives := some (generate_learning_objectives topic num_questions)
    questions := questions
    tags := some ([slugOf topic, difficulty, "educational", "comprehensive"] ++ keywords)
    metadata :=
      [("educationalLevel", get_educational_level difficulty),
       ("prerequisites",
        if difficulty ∈ (["medium", "hard"] : List String)
        then "Basic understanding of " ++ topic else "None"),
       ("targetAudience", "Students, professionals, and lifelong learners"),
       ("generationMethod", "enhanced_fallback"),
       ("keywordsUsed", String.intercalate ", " (keywords.take 5))] }

/-- Map with the element index, the model of the Python enumerate loops
that rebuild each question. -/
def mapIdxFrom (f : Nat → Question → Question) : Nat → List Question → List Question
  | _, [] => []
  | i, q :: qs => f i q :: mapIdxFrom f (i + 1) qs

/-- Set a key in the metadata map: replace the value in place when the key
exists, append the pair otherwise, as Python dict assignment does. -/
def setMeta (m : List (String × String)) (k v : String) : List (String × String) :=
  if m.any (fun p => p.1 = k) then m.map (fun p => if p.1 = k then (k, v) else p)
  else m ++ [(k, v)]

/-- The truthiness test of the explanations branch: the key is absent or
holds the empty string. -/
def needsExplanation (q : Question) : Bool :=
  match q.explanation with
  | none => true
  | some e => e = ""

/-- The per-question body of the explanations enhancement: synthesize an
explanation from the quiz title (default topic), the literal key concept
aspect and the question difficulty (default medium) when one is missing. -/
def addExplanation (quizTitle : Option String) (q : Question) : Question :=
  if needsExplanation q then
    { q with explanation := some (create_detailed_explanation (quizTitle.getD "topic")
        "key concept" (q.difficulty.getD "medium")) }
  else q

/-- The per-question body of the difficulty enhancement: difficulty, points
and time limit reassigned by the position modulo three. -/
def adjustDifficulty (i : Nat) (q : Question) : Question :=
  if i % 3 = 0 then
    { q with difficulty := some "easy", points := some 100, timeLimit := some 30 }
  else if i % 3 = 1 then
    { q with difficulty := some "medium", points := some 150, timeLimit := some 45 }
  else
    { q with difficulty := some "hard", points := some 200, timeLimit := some 60 }

/-- Python str.split with no separator: the maximal non-whitespace runs. -/
def pySplit (s : String) : List String :=
  (runsBy (fun c => !c.isWhitespace) s.data).map String.mk

/-- Model of enhance_explanation: an explanation of fewer than ten
whitespace-separated words gets a fixed elaboration sentence appended. -/
def enhance_explanation (explanation : String) : String :=
  if (pySplit explanation).length < 10 then
    explanation ++ " This understanding is crucial for building a comprehensive knowledge base and applying concepts in practical scenarios."
  else explanation

/-- Replace every non-overlapping occurrence of a nonempty pat left to
right, the model of Python str.replace on the character data. -/
def replaceList (pat repl : List Char) : List Char → List Char
  | [] => []
  | c :: cs =>
    if !pat.isEmpty && pat.isPrefixOf (c :: cs) then
      repl ++ replaceList pat repl (cs.drop (pat.length - 1))
    else c :: replaceList pat repl cs
termination_by l => l.length
decreasing_by
  · simp only [List.length_drop, List.length_cons]; omega
  · simp only [List.length_cons]; omega

/-- Python str.replace lifted to strings. -/
def pyReplace (s pat repl : String) : String :=
  String.mk (replaceList pat.data repl.data s.data)

/-- Python str.strip with no argument: whitespace removed from both ends. -/
def pyStrip (s : String) : String :=
  String.mk ((s.data.dropWhile Char.isWhitespace).reverse.dropWhile Char.isWhitespace).reverse

/-- The per-question body of the comprehensive enhancement, reading the
already-prefixed title; tip, tags and explanation in source order. -/
def comprehensiveQuestion (title : Option String) (category : Option String)
    (i : Nat) (q : Question) : Question :=
  let q1 := if q.educationalTip = none then
      { q with educationalTip := some (generate_educational_tip (title.getD "topic")
          ("concept " ++ toString (i + 1))) }
    else q
  let q2 := if q1.tags = none then
      { q1 with tags := some [toLowerStr (category.getD "general"),
          q1.difficulty.getD "medium", "question_" ++ toString (i + 1)] }
    else q1
  match q2.explanation with
  | some e => { q2 with explanation := some (enhance_explanation e) }
  | none => q2

/-- Model of enhance_quiz_comprehensively; now is the timestamp rendered
into the stamped metadata. -/
def enhance_quiz_comprehensively (quiz : Quiz) (now : String) : Quiz :=
  let title2 := quiz.title.map (fun t => "Enhanced: " ++ t)
  let description2 := quiz.description.map (fun d =>
    d ++ "\n\nThis quiz has been enhanced with additional explanations, varied difficulty levels, and educational tips.")
  let learningObjectives2 :=
    match quiz.learningObjectives with
    | some l => some l
    | none => some (generate_learning_objectives
        (pyStrip (pyReplace (pyReplace (title2.getD "") "Quiz" "") "quiz" "")) 3)
  let questions2 := mapIdxFrom (comprehensiveQuestion title2 quiz.category) 0 quiz.questions
  { quiz with
    title := title2
    description := description2
    learningObjectives := learningObjectives2
    questions := questions2
    metadata := setMeta (setMeta (setMeta (setMeta quiz.metadata
      "comprehensivelyEnhanced" "True") "enhancementDate" now)
      "totalEnhancements" (toString quiz.questions.length)) "aiEnhanced" "True" }

/-- Model of enhance_quiz_content; now is the timestamp the source stamps
into the metadata of every mode. -/
def enhance_quiz_content (quiz : Quiz) (enhancement_type : String) (now : String) : Quiz :=
  let enhanced :=
    if enhancement_type = "explanations" then
      { quiz with questions := quiz.questions.map (addExplanation quiz.title) }
    else if enhancement_type = "difficulty" then
      { quiz with questions := mapIdxFrom adjustDifficulty 0 quiz.questions }
    else if enhancement_type = "comprehensive" then
      enhance_quiz_comprehensively quiz now
    else quiz
  { enhanced with
    metadata := setMeta (setMeta (setMeta enhanced.metadata
      "enhancedAt" now) "enhancementType" enhancement_type) "enhancementProvider" "quizito_ai" }

/-- Sentence-ending character class of the regex split in the analyzer. -/
def isSentEnd (c : Char) : Bool := c = '.' || c = '!' || c = '?'

/-- Collapse each maximal run of sentence-ending characters to one period;
splitting the result on periods then models the regex split on runs. -/
def collapseSentEnds : Bool → List Char → List Char
  | _, [] => []
  | prevEnd, c :: cs =>
    if isSentEnd c then
      if prevEnd then collapseSentEnds true cs
      else '.' :: collapseSentEnds true cs
    else c :: collapseSentEnds false cs

/-- Model of the regex split on runs of sentence-ending characters; like
re.split it yields one piece even on empty text. -/
def splitSentences (s : String) : List String :=
  ((collapseSentEnds false s.data).splitOn '.').map String.mk

/-- Model of the regex scan for capitalized words in
extract_potential_topics: a word-character run that is an ASCII capital
followed by at least three lower-case letters. -/
def capWords (text : String) : List String :=
  (runsBy isWordChar text.data).filterMap (fun r =>
    match r with
    | c :: cs =>
      if c.isUpper && cs.all (fun d => d.isLower) && 3 ≤ cs.length
      then some (String.mk (c :: cs)) else none
    | [] => none)

/-- The capitalized stop-word set of extract_potential_topics. -/
def topic_common_words : List String :=
  ["This", "That", "With", "From", "Have", "Were", "Their", "Which", "About", "There"]

/-- The ranked candidate list behind extract_potential_topics: capitalized
words outside the stop-word set, counted and stably sorted by descending
frequency. -/
def rankedTopics (text : String) : List String :=
  (sortByCountDesc (countWords ((capWords text).filter
    (fun w => w ∉ topic_common_words)))).map Prod.fst

/-- Model of extract_potential_topics: the ranked candidates truncated to
the top ten. -/
def extract_potential_topics (text : String) : List String :=
  (rankedTopics text).take 10

/-- Model of determine_content_type: ordered keyword bucket test over the
lower-cased text, first match wins. -/
def determine_content_type (text : String) : String :=
  let text_lower := toLowerStr text
  if (["algorithm", "code", "programming", "software"] : List String).any
      (fun w => containsSub text_lower w) then "Technology/Programming"
  else if (["experiment", "research", "study", "scientific"] : List String).any
      (fun w => containsSub text_lower w) then "Scientific/Research"
  else if (["historical", "century", "war", "civilization"] : List String).any
      (fun w => containsSub text_lower w) then "Historical"
  else if (["business", "market", "financial", "economic"] : List String).any
      (fun w => containsSub text_lower w) then "Business/Economics"
  else "General/Educational"

/-- The fixed technical vocabulary of estimate_technical_level. -/
def technical_terms : List String :=
  ["algorithm", "protocol", "architecture", "framework", "syntax",
   "theorem", "hypothesis", "methodology", "quantitative", "analysis"]

/-- Model of estimate_technical_level: the count of vocabulary terms that
occur in the lower-cased text, mapped to a level name. -/
def estimate_technical_level (text : String) : String :=
  let count := (technical_terms.filter (fun t => containsSub (toLowerStr text) t)).length
  if 10 < count then "Advanced Technical"
  else if 5 < count then "Intermediate Technical"
  else if 0 < count then "Basic Technical"
  else "Non-Technical"

/-- First-occurrence deduplication standing in for the Python list of a
set, whose order the runtime leaves unspecified; no verified claim depends
on the order of the deduplicated list. -/
def dedupFirst : List String → List String
  | [] => []
  | x :: xs => x :: dedupFirst (xs.filter (fun y => y ≠ x))
termination_by l => l.length
decreasing_by
  simp only [List.length_cons]
  exact Nat.lt_succ_of_le (List.length_filter_le _ _)

/-- The words one sentence contributes in extract_key_themes: capitalized
words of length above three that are not sentence-initial and whose
predecessor is not an article, from sentences of more than five words. -/
def themeWordsOfSentence (sentence : String) : List String :=
  let words := pySplit sentence
  if 5 < words.length then
    words.enum.filterMap (fun iw =>
      if (iw.2.data.headD ' ').isUpper && 3 < iw.2.length && 0 < iw.1 &&
          words.getD (iw.1 - 1) "" ∉ (["the", "a", "an"] : List String)
      then some iw.2 else none)
  else []

/-- Model of extract_key_themes: the first fifty sentences scanned in
order, contributions concatenated, deduplicated, capped at ten. -/
def extract_key_themes (text : String) : List String :=
  (dedupFirst (((splitSentences text).take 50).flatMap themeWordsOfSentence)).take 10

/-- Round to two decimals, half to even, the model of the Python round
applied to the exact rational value of an average. -/
def round2 (q : ℚ) : ℚ :=
  let scaled := q * 100
  let fl := ⌊scaled⌋
  let frac := scaled - fl
  let r : ℤ :=
    if frac < 1/2 then fl
    else if 1/2 < frac then fl + 1
    else if fl % 2 = 0 then fl else fl + 1
  (r : ℚ) / 100

/-- The statistics block of the PDF analysis. -/
structure PdfStatistics where
  totalPages : Nat
  totalWords : Nat
  totalSentences : Nat
  averageWordLength : ℚ
  averageSentenceLength : ℚ
deriving DecidableEq

/-- The analysis document of analyze_pdf_content. -/
structure PdfAnalysis where
  statistics : PdfStatistics
  contentType : String
  complexity : String
  technicalLevel : String
  potentialQuizTopics : List String
  keyThemes : List String
deriving DecidableEq

/-- Model of analyze_pdf_content. Word splitting, sentence splitting and
the zero-denominator guards mirror the source; the two averages are exact
rationals where the source uses floats. -/
def analyze_pdf_content (text : String) (page_texts : List String) : PdfAnalysis :=
  let words := pySplit text
  let sentences := splitSentences text
  let avg_word_length : ℚ :=
    if words.length ≠ 0 then ((words.map String.length).sum : ℚ) / (words.length : ℚ) else 0
  let avg_sentence_length : ℚ :=
    if sentences.length ≠ 0 then (words.length : ℚ) / (sentences.length : ℚ) else 0
  { statistics :=
      { totalPages := page_texts.length
        totalWords := words.length
        totalSentences := sentences.length
        averageWordLength := round2 avg_word_length
        averageSentenceLength := round2 avg_sentence_length }
    contentType := determine_content_type text
    complexity :=
      if 5 < avg_word_length ∧ 15 < avg_sentence_length then "high"
      else if 4 < avg_word_length then "medium" else "low"
    technicalLevel := estimate_technical_level text
    potentialQuizTopics := (extract_potential_topics text).take 5
    keyThemes := (extract_key_themes text).take 5 }

/-- Sum of the points of the contained questions, the invariant side of
the totalPoints property; an absent points field counts zero. -/
def sumPoints (quiz : Quiz) : Nat := (quiz.questions.map (fun q => q.points.getD 0)).sum

/-- The identity shuffle family, one admissible outcome of the in-place
numpy shuffle (also the net effect when it raises and the source swallows
the exception). -/
def idShuffle : Nat → List String → List String := fun _ => id

/-- A concrete two-question easy fallback quiz used to exhibit the failure
of the totalPoints invariant under the difficulty enhancement. -/
def twoQuestionQuiz : Quiz :=
  generate_enhanced_fallback_quiz "Math" "easy" 2 "multiple-choice" "" idShuffle

/-- A concrete five-question easy fallback quiz used as the difficulty
enhancement example. -/
def fiveQuestionQuiz : Quiz :=
  generate_enhanced_fallback_quiz "Math" "easy" 5 "multiple-choice" "" idShuffle

/-- A concrete text with six distinct qualifying capitalized words, used
against the potential-topics truncation claim. -/
def sixTopicText : String := "Alpha Bravo Charl Delta Echos Foxtr"

theorem mapIdxFrom_length (f : Nat → Question → Question) (l : List Question) :
    ∀ k, (mapIdxFrom f k l).length = l.length := by
  induction l with
  | nil => intro k; rfl
  | cons q qs ih => intro k; simp [mapIdxFrom, ih]

theorem mapIdxFrom_getElem? (f : Nat → Question → Question) (l : List Question) :
    ∀ (k i : Nat), (mapIdxFrom f k l)[i]? = l[i]?.map (f (k + i)) := by
  induction l with
  | nil => intro k i; simp [mapIdxFrom]
  | cons q qs ih =>
    intro k i
    cases i with
    | zero => simp [mapIdxFrom]
    | succ j =>
      simp only [mapIdxFrom, List.getElem?_cons_succ]
      rw [ih (k + 1) j]
      have h : k + 1 + j = k + (j + 1) := by omega
      rw [h]

theorem sum_points_mapIdxFrom (f : Nat → Question → Question)
    (hf : ∀ i q, (f i q).points = q.points) (l : List Question) :
    ∀ k, ((mapIdxFrom f k l).map (fun q => q.points.getD 0)).sum =
      (l.map (fun q => q.points.getD 0)).sum := by
  induction l with
  | nil => intro k; rfl
  | cons q qs ih => intro k; simp [mapIdxFrom, hf, ih]

theorem append_ne_empty_of_right (s t : String) (h : 0 < t.length) : s ++ t ≠ "" := by
  intro he
  have hl := congrArg String.length he
  rw [String.length_append] at hl
  have h0 : ("" : String).length = 0 := rfl
  omega

theorem create_detailed_explanation_ne_empty (topic aspect difficulty : String) :
    create_detailed_explanation topic aspect difficulty ≠ "" := by
  unfold create_detailed_explanation medium_explanation
  split_ifs <;> exact append_ne_empty_of_right _ _ (by decide)

theorem distractorsFor_length (a t d : String) : (distractorsFor a t d).length = 4 := by
  unfold distractorsFor
  split_ifs <;> rfl

theorem templatesFor_length_pos (topic : String) : 0 < (templatesFor topic).length := by
  simp only [templatesFor]
  split_ifs <;> decide

/-- C4: the topic classifier is a total deterministic function that always
returns one of the six fixed categories; classifying Python programming
gives Technology and classifying the empty string gives General. -/
theorem C4_categorize_topic_total :
    (∀ topic : String, categorize_topic topic ∈
      (["Technology", "Science", "History", "Mathematics", "Business", "General"] : List String)) ∧
    categorize_topic "Python programming" = "Technology" ∧
    categorize_topic "" = "General" := by
  refine ⟨fun topic => ?_, by decide, by decide⟩
  simp only [categorize_topic]
  split_ifs <;> simp

/-- C3: the aspect generator returns a sequence of exactly the requested
length whose element at index i is the fragment at i modulo the fragment
count followed by of-topic, and the sequence is cyclic with that period. -/
theorem C3_generate_aspects_cyclic (topic : String) (n : Nat) :
    (generate_aspects_from_topic topic n).length = n ∧
    ∀ i : Nat, i < n →
      (generate_aspects_from_topic topic n)[i]? =
        some ((templatesFor topic).getD (i % (templatesFor topic).length) "" ++ " of " ++ topic) ∧
      (generate_aspects_from_topic topic n)[i]? =
        (generate_aspects_from_topic topic n)[i % (templatesFor topic).length]? := by
  have helem : ∀ j : Nat, j < n →
      (generate_aspects_from_topic topic n)[j]? =
        some ((templatesFor topic).getD (j % (templatesFor topic).length) "" ++ " of " ++ topic) := by
    intro j hj
    simp only [generate_aspects_from_topic]
    rw [List.getElem?_take_of_lt hj, List.getElem?_map, List.getElem?_range hj]
    rfl
  refine ⟨by simp [generate_aspects_from_topic], fun i hi => ⟨helem i hi, ?_⟩⟩
  have hmod_lt : i % (templatesFor topic).length < n := lt_of_le_of_lt (Nat.mod_le i _) hi
  rw [helem i hi, helem _ hmod_lt, Nat.mod_mod_of_dvd _ dvd_rfl]

/-- C3 witness: the aspect list for topic x with two aspects, evaluated at
index one. -/
theorem C3_generate_aspects_cyclic_witness :
    (1 < 2 ∧
      (generate_aspects_from_topic "x" 2)[1]? =
        some ((templatesFor "x").getD (1 % (templatesFor "x").length) "" ++ " of " ++ "x")) ∧
    (generate_aspects_from_topic "x" 2)[1]? =
      (generate_aspects_from_topic "x" 2)[1 % (templatesFor "x").length]? :=
  ⟨⟨by decide, ((C3_generate_aspects_cyclic "x" 2).2 1 (by decide)).1⟩,
    ((C3_generate_aspects_cyclic "x" 2).2 1 (by decide)).2⟩

/-- C1: for the three recognized difficulties the fallback assembler
returns exactly the requested number of questions, total points equal to
the count times the per-difficulty value of the 100, 150, 200 table, and
estimated time the count times 0.8; on the concrete Photosynthesis request
it yields a title containing the topic, three easy questions worth 100
points and 30 seconds each, 300 total points and estimated time 2.4. -/
theorem C1_fallback_assembler (topic difficulty : String) (n : Nat)
    (quiz_type : String) (sh : Nat → List String → List String)
    (hd : difficulty ∈ (["easy", "medium", "hard"] : List String)) :
    ((generate_enhanced_fallback_quiz topic difficulty n quiz_type "" sh).questions.length = n ∧
     (generate_enhanced_fallback_quiz topic difficulty n quiz_type "" sh).totalPoints =
       some (n * pointsFor difficulty) ∧
     pointsFor difficulty =
       (if difficulty = "easy" then 100 else if difficulty = "medium" then 150 else 200) ∧
     (generate_enhanced_fallback_quiz topic difficulty n quiz_type "" sh).estimatedTime =
       some ((n : ℚ) * 0.8)) ∧
    ∀ sh2 : Nat → List String → List String,
      containsSub ((generate_enhanced_fallback_quiz "Photosynthesis" "easy" 3
          "multiple-choice" "" sh2).title.getD "") "Photosynthesis" = true ∧
      (generate_enhanced_fallback_quiz "Photosynthesis" "easy" 3
          "multiple-choice" "" sh2).questions.length = 3 ∧
      (∀ q ∈ (generate_enhanced_fallback_quiz "Photosynthesis" "easy" 3
          "multiple-choice" "" sh2).questions,
        q.points = some 100 ∧ q.timeLimit = some 30 ∧ q.difficulty = some "easy") ∧
      (generate_enhanced_fallback_quiz "Photosynthesis" "easy" 3
          "multiple-choice" "" sh2).totalPoints = some 300 ∧
      (generate_enhanced_fallback_quiz "Photosynthesis" "easy" 3
          "multiple-choice" "" sh2).estimatedTime = some (2.4 : ℚ) := by
  constructor
  · refine ⟨by simp [generate_enhanced_fallback_quiz], rfl, ?_, rfl⟩
    simp only [List.mem_cons, List.mem_singleton, List.not_mem_nil, or_false] at hd
    rcases hd with h | h | h <;> subst h <;> rfl
  · intro sh2
    refine ⟨by rfl, by simp [generate_enhanced_fallback_quiz], ?_, by rfl, ?_⟩
    · intro q hq
      simp only [generate_enhanced_fallback_quiz, List.mem_map, List.mem_range] at hq
      obtain ⟨j, hj, rfl⟩ := hq
      exact ⟨rfl, rfl, rfl⟩
    · show some ((3 : ℚ) * 0.8) = some (2.4 : ℚ)
      norm_num

/-- C1 witness: the easy difficulty is in the recognized set and the
four-question easy fallback quiz has four questions worth 100 each. -/
theorem C1_fallback_assembler_witness :
    ("easy" : String) ∈ (["easy", "medium", "hard"] : List String) ∧
    (generate_enhanced_fallback_quiz "Hist" "easy" 4 "multiple-choice" "" idShuffle).questions.length = 4 ∧
    (generate_enhanced_fallback_quiz "Hist" "easy" 4 "multiple-choice" "" idShuffle).totalPoints =
      some (4 * pointsFor "easy") :=
  ⟨by decide, (C1_fallback_assembler "Hist" "easy" 4 "multiple-choice" idShuffle (by decide)).1.1,
    (C1_fallback_assembler "Hist" "easy" 4 "multiple-choice" idShuffle (by decide)).1.2.1⟩

/-- C2: whatever permutation the shuffle produces of the assembled option
list, the resulting option list has exactly four entries, the option at
index zero is the literal correct string The-aspect, and the question
reports correct answer index zero. -/
theorem C2_options_pinned (aspect topic difficulty : String) (i : Nat) (quiz_type : String)
    (s : List String → List String)
    (hperm : (s (("The " ++ aspect) :: (distractorsFor aspect topic difficulty).take 3)).Perm
      (("The " ++ aspect) :: (distractorsFor aspect topic difficulty).take 3)) :
    (generate_plausible_options aspect topic difficulty s).length = 4 ∧
    (generate_plausible_options aspect topic difficulty s)[0]? = some ("The " ++ aspect) ∧
    (mkFallbackQuestion topic aspect i difficulty quiz_type s).correctAnswer = 0 := by
  have hmem : ("The " ++ aspect) ∈
      s (("The " ++ aspect) :: (distractorsFor aspect topic difficulty).take 3) :=
    hperm.mem_iff.mpr (List.mem_cons_self _ _)
  have hlen : (s (("The " ++ aspect) :: (distractorsFor aspect topic difficulty).take 3)).length = 4 := by
    rw [hperm.length_eq]
    simp [List.length_take, distractorsFor_length]
  refine ⟨?_, ?_, rfl⟩
  · show (relocate_correct ("The " ++ aspect)
      (s (("The " ++ aspect) :: (distractorsFor aspect topic difficulty).take 3))).length = 4
    rw [relocate_correct, if_pos hmem]
    simp [List.length_erase_of_mem hmem, hlen]
  · show (relocate_correct ("The " ++ aspect)
      (s (("The " ++ aspect) :: (distractorsFor aspect topic difficulty).take 3)))[0]? =
      some ("The " ++ aspect)
    rw [relocate_correct, if_pos hmem]
    simp

/-- C2 witness: the identity permutation outcome on a concrete easy
question. -/
theorem C2_options_pinned_witness :
    (id (("The " ++ "y") :: (distractorsFor "y" "x" "easy").take 3)).Perm
      (("The " ++ "y") :: (distractorsFor "y" "x" "easy").take 3) ∧
    (generate_plausible_options "y" "x" "easy" id).length = 4 ∧
    (generate_plausible_options "y" "x" "easy" id)[0]? = some ("The " ++ "y") :=
  ⟨List.Perm.refl _,
    (C2_options_pinned "y" "x" "easy" 0 "multiple-choice" id (List.Perm.refl _)).1,
    (C2_options_pinned "y" "x" "easy" 0 "multiple-choice" id (List.Perm.refl _)).2.1⟩

/-- C5 as stated fails: the difficulty enhancement reassigns question
points without recomputing totalPoints, so on a concrete two-question easy
fallback quiz the enhanced quiz keeps totalPoints 200 while its question
points sum to 250. -/
theorem C5_counterexample :
    ¬ ((enhance_quiz_content twoQuestionQuiz "difficulty" "ts").totalPoints =
      some (sumPoints (enhance_quiz_content twoQuestionQuiz "difficulty" "ts"))) := by
  decide

/-- C5 amended: the fallback assembler establishes the totalPoints
invariant, and the explanations and comprehensive enhancement modes
preserve both totalPoints and the question-point sum, while the difficulty
mode does not preserve the invariant in general. -/
theorem C5_totalPoints_invariant (topic difficulty : String) (n : Nat)
    (quiz_type context : String) (sh : Nat → List String → List String)
    (quiz : Quiz) (now : String) :
    (generate_enhanced_fallback_quiz topic difficulty n quiz_type context sh).totalPoints =
      some (sumPoints (generate_enhanced_fallback_quiz topic difficulty n quiz_type context sh)) ∧
    (enhance_quiz_content quiz "explanations" now).totalPoints = quiz.totalPoints ∧
    sumPoints (enhance_quiz_content quiz "explanations" now) = sumPoints quiz ∧
    (enhance_quiz_content quiz "comprehensive" now).totalPoints = quiz.totalPoints ∧
    sumPoints (enhance_quiz_content quiz "comprehensive" now) = sumPoints quiz := by
  have haddpts : ∀ (t : Option String) (q : Question), (addExplanation t q).points = q.points := by
    intro t q
    unfold addExplanation
    split_ifs <;> rfl
  have hcomppts : ∀ (t c : Option String) (i : Nat) (q : Question),
      (comprehensiveQuestion t c i q).points = q.points := by
    intro t c i q
    obtain ⟨a1, a2, a3, a4, e, p, tl, d, cat, tg, tip⟩ := q
    simp only [comprehensiveQuestion]
    cases e <;> cases tg <;> cases tip <;> rfl
  refine ⟨?_, rfl, ?_, rfl, ?_⟩
  · have hsum : sumPoints (generate_enhanced_fallback_quiz topic difficulty n quiz_type context sh) =
        n * pointsFor difficulty := by
      simp only [sumPoints, generate_enhanced_fallback_quiz, List.map_map, Function.comp_def,
        mkFallbackQuestion]
      simp [List.map_const]
    rw [hsum]
    rfl
  · show ((quiz.questions.map (addExplanation quiz.title)).map (fun q => q.points.getD 0)).sum =
      sumPoints quiz
    rw [List.map_map]
    simp [sumPoints, Function.comp_def, haddpts]
  · show ((mapIdxFrom (comprehensiveQuestion (quiz.title.map (fun t => "Enhanced: " ++ t))
        quiz.category) 0 quiz.questions).map (fun q => q.points.getD 0)).sum = sumPoints quiz
    rw [sum_points_mapIdxFrom _ (fun i q => hcomppts _ _ i q) quiz.questions 0]
    rfl

/-- C6: the difficulty enhancement keeps the question count, reassigns
difficulty, points and time limit of the question at position i by i
modulo three following the easy-medium-hard table, and on a five-question
quiz the resulting difficulties are easy, medium, hard, easy, medium. -/
theorem C6_difficulty_mode (quiz : Quiz) (now : String) :
    (enhance_quiz_content quiz "difficulty" now).questions.length = quiz.questions.length ∧
    (∀ i : Nat, i < quiz.questions.length →
      ((enhance_quiz_content quiz "difficulty" now).questions[i]?.map
          (fun q => (q.difficulty, q.points, q.timeLimit))) =
        some (some ((["easy", "medium", "hard"] : List String).getD (i % 3) ""),
          some (([100, 150, 200] : List Nat).getD (i % 3) 0),
          some (([30, 45, 60] : List Nat).getD (i % 3) 0))) ∧
    (quiz.questions.length = 5 →
      (enhance_quiz_content quiz "difficulty" now).questions.map (fun q => q.difficulty) =
        [some "easy", some "medium", some "hard", some "easy", some "medium"]) := by
  have hq : (enhance_quiz_content quiz "difficulty" now).questions =
      mapIdxFrom adjustDifficulty 0 quiz.questions := rfl
  have hadj : ∀ i q, ((adjustDifficulty i q).difficulty, (adjustDifficulty i q).points,
      (adjustDifficulty i q).timeLimit) =
      (some ((["easy", "medium", "hard"] : List String).getD (i % 3) ""),
        some (([100, 150, 200] : List Nat).getD (i % 3) 0),
        some (([30, 45, 60] : List Nat).getD (i % 3) 0)) := by
    intro i q
    have h3 : i % 3 = 0 ∨ i % 3 = 1 ∨ i % 3 = 2 := by omega
    rcases h3 with h | h | h <;> simp [adjustDifficulty, h]
  refine ⟨by rw [hq]; exact mapIdxFrom_length _ _ 0, ?_, ?_⟩
  · intro i hi
    rw [hq, mapIdxFrom_getElem?]
    rw [List.getElem?_eq_getElem hi]
    simpa using hadj i quiz.questions[i]
  · intro h5
    apply List.ext_getElem?
    intro j
    rw [List.getElem?_map, hq, mapIdxFrom_getElem?]
    by_cases hj : j < 5
    · rw [List.getElem?_eq_getElem (by omega : j < quiz.questions.length)]
      have h3 : j = 0 ∨ j = 1 ∨ j = 2 ∨ j = 3 ∨ j = 4 := by omega
      rcases h3 with h | h | h | h | h <;> subst h <;>
        simp [adjustDifficulty]
    · rw [List.getElem?_eq_none (by omega : quiz.questions.length ≤ j)]
      have : (([some "easy", some "medium", some "hard", some "easy", some "medium"] :
          List (Option String)).length) ≤ j := by simp; omega
      rw [List.getElem?_eq_none this]
      rfl

/-- C6 witness: the difficulty enhancement of the concrete five-question
quiz, evaluated at position one and as a whole difficulty list. -/
theorem C6_difficulty_mode_witness :
    (1 < fiveQuestionQuiz.questions.length ∧
      ((enhance_quiz_content fiveQuestionQuiz "difficulty" "ts").questions[1]?.map
          (fun q => (q.difficulty, q.points, q.timeLimit))) =
        some (some "medium", some 150, some 45)) ∧
    (fiveQuestionQuiz.questions.length = 5 ∧
      (enhance_quiz_content fiveQuestionQuiz "difficulty" "ts").questions.map
          (fun q => q.difficulty) =
        [some "easy", some "medium", some "hard", some "easy", some "medium"]) := by
  refine ⟨⟨by decide, ?_⟩, ⟨by decide, ?_⟩⟩
  · have h := (C6_difficulty_mode fiveQuestionQuiz "ts").2.1 1 (by decide)
    simpa using h
  · exact (C6_difficulty_mode fiveQuestionQuiz "ts").2.2 (by decide)

/-- C7 as stated fails: analyzing the empty text with no pages reports one
sentence, not zero, because the regex split of empty text yields a single
empty piece. -/
theorem C7_counterexample :
    ¬ ((analyze_pdf_content "" []).statistics.totalSentences = 0) := by decide

/-- C7 amended: analyzing the empty text with no pages does not fault and
returns zero pages, zero words, one sentence, zero averages, complexity
low and technical level Non-Technical. -/
theorem C7_empty_analysis :
    (analyze_pdf_content "" []).statistics.totalPages = 0 ∧
    (analyze_pdf_content "" []).statistics.totalWords = 0 ∧
    (analyze_pdf_content "" []).statistics.totalSentences = 1 ∧
    (analyze_pdf_content "" []).statistics.averageWordLength = 0 ∧
    (analyze_pdf_content "" []).statistics.averageSentenceLength = 0 ∧
    (analyze_pdf_content "" []).complexity = "low" ∧
    (analyze_pdf_content "" []).technicalLevel = "Non-Technical" := by
  have hw : pySplit "" = [] := by decide
  have hs : splitSentences "" = [""] := by decide
  have hr : round2 0 = 0 := by
    simp only [round2]
    norm_num
  refine ⟨by decide, by decide, by decide, ?_, ?_, by decide, by decide⟩
  · show round2 (if (pySplit "").length ≠ 0 then
        (((pySplit "").map String.length).sum : ℚ) / ((pySplit "").length : ℚ) else 0) = 0
    rw [hw]
    simpa using hr
  · show round2 (if (splitSentences "").length ≠ 0 then
        ((pySplit "").length : ℚ) / ((splitSentences "").length : ℚ) else 0) = 0
    rw [hw, hs]
    simpa using hr

/-- C8 as stated fails: the potential-topics field of the analysis is the
ranked candidate list truncated to five, not ten; on a text with six
qualifying capitalized words the field drops the sixth. -/
theorem C8_counterexample :
    ¬ ((analyze_pdf_content sixTopicText []).potentialQuizTopics =
      (rankedTopics sixTopicText).take 10) := by decide

/-- C8 amended: the potential-topics field of the analysis equals the
frequency-ranked capitalized-word candidates truncated to the top five,
and so never holds more than five entries. -/
theorem C8_potential_topics (text : String) (page_texts : List String) :
    (analyze_pdf_content text page_texts).potentialQuizTopics = (rankedTopics text).take 5 ∧
    (analyze_pdf_content text page_texts).potentialQuizTopics.length ≤ 5 := by
  have h : (analyze_pdf_content text page_texts).potentialQuizTopics =
      ((rankedTopics text).take 10).take 5 := rfl
  constructor
  · rw [h, List.take_take]
    norm_num
  · rw [h, List.take_take]
    norm_num

/-- C9: the explanations enhancement is idempotent on the per-question
explanations: it only fills absent or empty explanations, and the
synthesized explanations are nonempty, so a second pass changes nothing. -/
theorem C9_explanations_idempotent (quiz : Quiz) (now now2 : String) :
    (enhance_quiz_content (enhance_quiz_content quiz "explanations" now)
        "explanations" now2).questions.map (fun q => q.explanation) =
      (enhance_quiz_content quiz "explanations" now).questions.map (fun q => q.explanation) := by
  have key : ∀ (t2 t : Option String) (q : Question),
      addExplanation t2 (addExplanation t q) = addExplanation t q := by
    intro t2 t q
    have hfix : needsExplanation (addExplanation t q) = false := by
      unfold addExplanation
      split_ifs with h
      · show decide (create_detailed_explanation (t.getD "topic") "key concept"
          (q.difficulty.getD "medium") = "") = false
        exact decide_eq_false (create_detailed_explanation_ne_empty _ _ _)
      · simpa using h
    generalize hA : addExplanation t q = A at hfix ⊢
    unfold addExplanation
    simp [hfix]
  have hq2 : (enhance_quiz_content (enhance_quiz_content quiz "explanations" now)
        "explanations" now2).questions =
      (enhance_quiz_content quiz "explanations" now).questions := by
    show (quiz.questions.map (addExplanation quiz.title)).map (addExplanation quiz.title) =
      quiz.questions.map (addExplanation quiz.title)
    rw [List.map_map]
    simp [Function.comp_def, key]
  rw [hq2]

/-- C10: for a difficulty outside easy, medium and hard the fallback
question synthesis still succeeds and assigns the easy numeric defaults of
100 points and a 30 second limit, while the explanation carries the medium
wording, and every question of the fallback quiz gets those defaults. -/
theorem C10_unrecognized_difficulty (topic aspect : String) (i : Nat)
    (quiz_type : String) (s : List String → List String) (n : Nat) (context : String)
    (sh : Nat → List String → List String) (difficulty : String)
    (hd : difficulty ∉ (["easy", "medium", "hard"] : List String)) :
    (mkFallbackQuestion topic aspect i difficulty quiz_type s).points = some 100 ∧
    (mkFallbackQuestion topic aspect i difficulty quiz_type s).timeLimit = some 30 ∧
    (mkFallbackQuestion topic aspect i difficulty quiz_type s).explanation =
      some (medium_explanation topic aspect) ∧
    (mkFallbackQuestion topic aspect i difficulty quiz_type s).explanation =
      some (create_detailed_explanation topic aspect "medium") ∧
    ∀ q ∈ (generate_enhanced_fallback_quiz topic difficulty n quiz_type context sh).questions,
      q.points = some 100 ∧ q.timeLimit = some 30 := by
  simp only [List.mem_cons, List.mem_singleton, List.not_mem_nil, or_false, not_or] at hd
  obtain ⟨h1, h2, h3⟩ := hd
  refine ⟨?_, ?_, ?_, ?_, ?_⟩
  · simp [mkFallbackQuestion, pointsFor, h1, h2, h3]
  · simp [mkFallbackQuestion, timeFor, h1, h2, h3]
  · simp [mkFallbackQuestion, create_detailed_explanation, h1, h2, h3]
  · simp [mkFallbackQuestion, create_detailed_explanation, h1, h2, h3]
  · intro q hq
    simp only [generate_enhanced_fallback_quiz, List.mem_map, List.mem_range] at hq
    obtain ⟨j, hj, rfl⟩ := hq
    constructor
    · simp [mkFallbackQuestion, pointsFor, h1, h2, h3]
    · simp [mkFallbackQuestion, timeFor, h1, h2, h3]

/-- C10 witness: the concrete unrecognized difficulty expert on a concrete
one-question request. -/
theorem C10_unrecognized_difficulty_witness :
    ("expert" : String) ∉ (["easy", "medium", "hard"] : List String) ∧
    (mkFallbackQuestion "x" "y" 0 "expert" "multiple-choice" id).points = some 100 ∧
    (mkFallbackQuestion "x" "y" 0 "expert" "multiple-choice" id).explanation =
      some (create_detailed_explanation "x" "y" "medium") :=
  ⟨by decide,
    (C10_unrecognized_difficulty "x" "y" 0 "multiple-choice" id 1 "" idShuffle "expert"
      (by decide)).1,
    (C10_unrecognized_difficulty "x" "y" 0 "multiple-choice" id 1 "" idShuffle "expert"
      (by decide)).2.2.2.1⟩

end Quizito
